import Mathlib

/-!
Verification of the reconciliation engine of the agente-conciliacion-sat
repository (src/conciliacion/matcher.py) against its natural-language
specification.

Shallow embedding conventions:
* Decimal amounts are modelled as rationals.
* Dates are modelled as integers (day numbers); the Python expression
  (a - b).days becomes plain integer subtraction.
* The run-scoped set of consumed receipt ids (the field _remisiones_usadas,
  a Python set used only for membership tests and insertions) is modelled as
  a list of strings with membership.
* External collaborators (the remisiones repository, the PDF extractor, the
  fuzzy string-similarity function of the fuzzywuzzy library, and the
  bipartite assignment solver of scipy) are modelled as function-valued
  fields of the context, since their code is not part of this repository.
* Human-readable alert strings are modelled by their fixed tag prefixes;
  interpolated numeric renderings are omitted (no claim depends on them).
  The duplicate-detection alerts, which a claim does inspect, are built
  with full string concatenation as in the source.
-/

namespace ConcMatcher

/-- Status of a receipt, from src/erp/models.py (EstatusRemision). -/
inductive EstatusRemision where
  | pendiente
  | recibida
  | parcial
  | facturada
  | cancelada
deriving DecidableEq, Repr

/-- One product line of a receipt (DetalleRemision); the matcher only reads
the description, so only that field is modelled. -/
structure DetalleRemision where
  descripcion_producto : String
deriving DecidableEq, Repr

/-- A receipt (Remision, src/erp/models.py), restricted to the fields the
matcher reads. -/
structure Remision where
  id_remision : String
  numero_remision : String
  fecha_remision : ℤ
  rfc_proveedor : String
  total : ℚ
  detalles : List DetalleRemision
  uuid_factura_vinculada : Option String
  uuid_factura : Option String
  estatus : EstatusRemision
deriving DecidableEq, Repr

/-- Python property Remision.esta_facturada:
uuid_factura_vinculada is not None
or (uuid_factura is not None and uuid_factura != the empty string)
or estatus == FACTURADA. -/
def Remision.esta_facturada (r : Remision) : Bool :=
  r.uuid_factura_vinculada.isSome ||
    (match r.uuid_factura with
     | some s => decide (s ≠ "")
     | none => false) ||
    decide (r.estatus = EstatusRemision.facturada)

/-- One line item of an invoice (Concepto); only the description is read. -/
structure Concepto where
  descripcion : String
deriving DecidableEq, Repr

/-- An invoice (Factura, src/sat/models.py), restricted to the fields the
matcher reads. -/
structure Factura where
  uuid : String
  identificador : String
  rfc_emisor : String
  nombre_emisor : String
  fecha_emision : ℤ
  total : ℚ
  conceptos : List Concepto
  numero_remision_indicado : Option String
  archivo_xml : Option String
deriving DecidableEq, Repr

/-- Configuration (config/settings.py, class Settings), restricted to the
fields the matcher reads.  Defaults: tolerancia_monto_porcentaje = 2.0,
dias_rango_busqueda = 15, dias_alerta_desfase = 7, umbral_similitud = 80. -/
structure Settings where
  tolerancia_monto_porcentaje : ℚ
  dias_rango_busqueda : ℤ
  dias_alerta_desfase : ℤ
  umbral_similitud_texto : ℕ
deriving DecidableEq, Repr

/-- The MatchScore value object of matcher.py. -/
structure MatchScore where
  score_total : ℚ
  score_monto : ℚ
  score_fecha : ℚ
  score_productos : ℚ
  diferencia_monto : ℚ
  diferencia_porcentaje : ℚ
  dias_diferencia : ℤ
  detalles : List String
  es_multi_remision : Bool
  remisiones : List Remision
  metodo_match : String
deriving DecidableEq, Repr

/-- Per-invoice output record (ResultadoConciliacion, src/erp/models.py),
restricted to the fields the matcher writes or the claims read. -/
structure ResultadoConciliacion where
  uuid_factura : String
  identificador_factura : String
  rfc_emisor : String
  nombre_emisor : String
  fecha_factura : ℤ
  total_factura : ℚ
  remision : Option Remision
  numero_remision : Option String
  fecha_remision : Option ℤ
  total_remision : Option ℚ
  remisiones : List Remision
  es_multi_remision : Bool
  conciliacion_exitosa : Bool
  score_matching : ℚ
  diferencia_monto : Option ℚ
  diferencia_porcentaje : Option ℚ
  alertas : List String
  metodo_matching : String
deriving DecidableEq, Repr

/-- Result of the PDF extractor (src/pdf), an external collaborator. -/
structure PDFExtractResult where
  exito : Bool
  remisiones_encontradas : List String
  orden_compra : Option String
deriving DecidableEq, Repr

/-- The matcher context: configuration plus all external collaborators
(repository queries, PDF lookups, fuzzy similarity) as functions.
Repository queries: buscar_para_conciliacion rfc fecha monto dias_rango,
buscar_por_numero numero rfc?, buscar_por_orden_compra numero rfc?. -/
structure MatcherCtx where
  settings : Settings
  fuzz_token_sort_ratio : String → String → ℕ
  buscar_para_conciliacion : String → ℤ → ℚ → ℤ → List Remision
  buscar_por_numero : String → Option String → List Remision
  buscar_por_orden_compra : String → Option String → List Remision
  pdf_support : Bool
  buscar_pdf_para_xml : String → String → Option String
  extraer_remisiones : String → PDFExtractResult

/-- Weight of the amount sub-score (class constant PESO_MONTO). -/
def PESO_MONTO : ℚ := 0.50

/-- Weight of the date sub-score (class constant PESO_FECHA). -/
def PESO_FECHA : ℚ := 0.30

/-- Weight of the line-item sub-score (class constant PESO_PRODUCTOS). -/
def PESO_PRODUCTOS : ℚ := 0.20

/-- Minimal acceptable total score (class constant SCORE_MINIMO_ACEPTABLE). -/
def SCORE_MINIMO_ACEPTABLE : ℚ := 0.70

/-- Maximal number of receipts in a combination
(class constant MAX_REMISIONES_COMBINACION). -/
def MAX_REMISIONES_COMBINACION : ℕ := 10

/-- Python truthiness of an optional string (None and the empty string are
falsy). -/
def truthyOpt : Option String → Bool
  | some s => decide (s ≠ "")
  | none => false

/-- Sum of the totals of a list of receipts, as the Python expression
sum(r.total for r in rs) (the sum starts from 0). -/
def sumTotals (rs : List Remision) : ℚ :=
  rs.foldl (fun acc r => acc + r.total) 0

/-- ConciliacionMatcher._calcular_score_productos: fraction of invoice line
items whose best fuzzy similarity against some receipt line item reaches the
configured threshold; 0.5 (neutral) when either side has no line items. -/
def calcular_score_productos (ctx : MatcherCtx) (factura : Factura)
    (remision : Remision) : ℚ :=
  if factura.conceptos = [] ∨ remision.detalles = [] then 0.5
  else
    let total_conceptos := factura.conceptos.length
    let matches_encontrados :=
      (factura.conceptos.filter (fun c =>
        let mejor_match := remision.detalles.foldl
          (fun m d => max m (ctx.fuzz_token_sort_ratio
            c.descripcion.toLower d.descripcion_producto.toLower)) 0
        decide (ctx.settings.umbral_similitud_texto ≤ mejor_match))).length
    if 0 < total_conceptos then (matches_encontrados : ℚ) / total_conceptos
    else 0.5

/-- ConciliacionMatcher._calcular_score: composite score of one invoice
against one receipt (amount band, date band, fuzzy line-item score, weighted
sum). -/
def calcular_score (ctx : MatcherCtx) (factura : Factura)
    (remision : Remision) : MatchScore :=
  let diferencia_monto := |factura.total - remision.total|
  let diferencia_porcentaje : ℚ :=
    if factura.total > 0 then diferencia_monto / factura.total * 100
    else 100
  let score_monto : ℚ :=
    if diferencia_porcentaje ≤ ctx.settings.tolerancia_monto_porcentaje then 1
    else if diferencia_porcentaje ≤ ctx.settings.tolerancia_monto_porcentaje * 2 then 0.7
    else if diferencia_porcentaje ≤ 10 then 0.5
    else max 0 (1 - diferencia_porcentaje / 50)
  let detalles₁ : List String :=
    if diferencia_porcentaje > ctx.settings.tolerancia_monto_porcentaje then
      ["ALERTA_MONTO: Diferencia"] else []
  let dias_diferencia := |factura.fecha_emision - remision.fecha_remision|
  let score_fecha : ℚ :=
    if dias_diferencia ≤ 1 then 1
    else if dias_diferencia ≤ 3 then 0.9
    else if dias_diferencia ≤ 7 then 0.7
    else if dias_diferencia ≤ 14 then 0.5
    else max 0 (1 - (dias_diferencia : ℚ) / 30)
  let detalles₂ : List String :=
    if dias_diferencia > ctx.settings.dias_alerta_desfase then
      ["FECHA_DESFASADA: dias de diferencia entre factura y remision"] else []
  let score_productos := calcular_score_productos ctx factura remision
  let score_total :=
    score_monto * PESO_MONTO + score_fecha * PESO_FECHA +
      score_productos * PESO_PRODUCTOS
  { score_total := score_total
    score_monto := score_monto
    score_fecha := score_fecha
    score_productos := score_productos
    diferencia_monto := diferencia_monto
    diferencia_porcentaje := diferencia_porcentaje
    dias_diferencia := dias_diferencia
    detalles := detalles₁ ++ detalles₂
    es_multi_remision := false
    remisiones := []
    metodo_match := "algoritmo" }

/-- ConciliacionMatcher._calcular_score_multi: composite score of one
invoice against a combination of receipts (shifted amount and date bands,
neutral line-item score, small penalty per extra receipt). -/
def calcular_score_multi (ctx : MatcherCtx) (factura : Factura)
    (remisiones : List Remision) : MatchScore :=
  let total_remisiones := sumTotals remisiones
  let diferencia_monto := |factura.total - total_remisiones|
  let diferencia_porcentaje : ℚ :=
    if factura.total > 0 then diferencia_monto / factura.total * 100
    else 100
  let score_monto : ℚ :=
    if diferencia_porcentaje ≤ ctx.settings.tolerancia_monto_porcentaje then 1
    else if diferencia_porcentaje ≤ ctx.settings.tolerancia_monto_porcentaje * 2 then 0.8
    else if diferencia_porcentaje ≤ 10 then 0.6
    else max 0 (1 - diferencia_porcentaje / 50)
  let dias_diferencias := remisiones.map
    (fun r => |factura.fecha_emision - r.fecha_remision|)
  let dias_diferencia : ℤ :=
    (dias_diferencias.foldl (· + ·) 0) / (remisiones.length : ℤ)
  let max_dias : ℤ := dias_diferencias.foldl max 0
  let score_fecha : ℚ :=
    if max_dias ≤ 3 then 1
    else if max_dias ≤ 7 then 0.8
    else if max_dias ≤ 14 then 0.6
    else max 0 (1 - (max_dias : ℚ) / 30)
  let score_productos : ℚ := 1
  let penalizacion_multi : ℚ := 0.02 * ((remisiones.length : ℚ) - 1)
  let score_total :=
    (score_monto * PESO_MONTO + score_fecha * PESO_FECHA +
      score_productos * PESO_PRODUCTOS) - penalizacion_multi
  let detalles₀ : List String := ["COMBINACION: remisiones"]
  let detalles₁ : List String :=
    if diferencia_porcentaje > ctx.settings.tolerancia_monto_porcentaje then
      ["ALERTA_MONTO: Diferencia combinada"] else []
  let detalles₂ : List String :=
    if max_dias > ctx.settings.dias_alerta_desfase then
      ["FECHA_DESFASADA: Rango de dias entre remisiones y factura"] else []
  { score_total := max 0 score_total
    score_monto := score_monto
    score_fecha := score_fecha
    score_productos := score_productos
    diferencia_monto := diferencia_monto
    diferencia_porcentaje := diferencia_porcentaje
    dias_diferencia := dias_diferencia
    detalles := detalles₀ ++ detalles₁ ++ detalles₂
    es_multi_remision := true
    remisiones := remisiones
    metodo_match := "algoritmo" }

/-- Enumeration order of itertools.combinations over a list: every
combination containing the head (in order) first, then the combinations of
the tail. -/
def combinaciones {α : Type} : List α → ℕ → List (List α)
  | _, 0 => [[]]
  | [], _ + 1 => []
  | x :: xs, n + 1 =>
      (combinaciones xs n).map (fun c => x :: c) ++ combinaciones xs (n + 1)

/-- The sequence of combinations enumerated by the size loop of
_buscar_combinacion_remisiones: sizes 2 up to
min(len(candidatas), MAX_REMISIONES_COMBINACION), in itertools order
within each size. -/
def combos_enumerados (candidatas : List Remision) : List (List Remision) :=
  ((List.range (min (candidatas.length + 1)
      (MAX_REMISIONES_COMBINACION + 1))).drop 2).flatMap
    (fun k => combinaciones candidatas k)

/-- The fixed combination tolerance of _buscar_combinacion_remisiones
(the local variable tolerancia_decimal, hard-coded to Decimal zero: the
source comment reads "solo buscar combinaciones exactas"). -/
def tolerancia_decimal : ℚ := 0.00

/-- PRIORIDAD 3 update of the running best combination: keep the candidate
with strictly smaller percentage difference, or on an exact tie the one
with strictly larger total score. -/
def upd_mejor_combinacion (mejor : Option MatchScore) (score : MatchScore) :
    Option MatchScore :=
  match mejor with
  | none => some score
  | some m =>
    if score.diferencia_porcentaje < m.diferencia_porcentaje then some score
    else if score.diferencia_porcentaje = m.diferencia_porcentaje ∧
        m.score_total < score.score_total then some score
    else some m

/-- Body of the combination loop of _buscar_combinacion_remisiones, over the
flattened enumeration of combinations, carrying the running
mejor_con_productos_exactos and mejor_combinacion and honouring the early
returns of the source (exact difference, and product-count match with
percentage difference at most 0.5). -/
def buscar_combinacion_loop (ctx : MatcherCtx) (factura : Factura)
    (productos_xml : ℕ) :
    List (List Remision) → Option MatchScore → Option MatchScore →
      Option MatchScore
  | [], mejorProd, mejorComb =>
    match mejorProd with
    | some s => some s
    | none => mejorComb
  | combo :: rest, mejorProd, mejorComb =>
    let total_combo := sumTotals combo
    let diferencia := |factura.total - total_combo|
    if diferencia ≤ tolerancia_decimal then
      let productos_combo :=
        combo.foldl (fun acc r => acc + r.detalles.length) 0
      let score := calcular_score_multi ctx factura combo
      if diferencia = 0 then some score
      else if productos_combo = productos_xml then
        match mejorProd with
        | none =>
          if score.diferencia_porcentaje ≤ 0.5 then some score
          else buscar_combinacion_loop ctx factura productos_xml rest
            (some score) (upd_mejor_combinacion mejorComb score)
        | some best =>
          if best.score_total < score.score_total then
            if score.diferencia_porcentaje ≤ 0.5 then some score
            else buscar_combinacion_loop ctx factura productos_xml rest
              (some score) (upd_mejor_combinacion mejorComb score)
          else buscar_combinacion_loop ctx factura productos_xml rest
            (some best) (upd_mejor_combinacion mejorComb score)
      else buscar_combinacion_loop ctx factura productos_xml rest
        mejorProd (upd_mejor_combinacion mejorComb score)
    else buscar_combinacion_loop ctx factura productos_xml rest
      mejorProd mejorComb

/-- ConciliacionMatcher._buscar_combinacion_remisiones: filter to eligible
candidates (total at most the invoice total and not already linked),
require at least two, truncate the pool to limite_candidatas, and run the
combination loop over sizes 2..MAX_REMISIONES_COMBINACION. -/
def buscar_combinacion_remisiones (ctx : MatcherCtx) (factura : Factura)
    (remisiones : List Remision) (limite_candidatas : ℕ) :
    Option MatchScore :=
  let candidatas := remisiones.filter
    (fun r => decide (r.total ≤ factura.total) && !(r.esta_facturada))
  if candidatas.length < 2 then none
  else
    let candidatas :=
      candidatas.take (min candidatas.length limite_candidatas)
    let productos_xml := factura.conceptos.length
    buscar_combinacion_loop ctx factura productos_xml
      (combos_enumerados candidatas) none none

/-- ConciliacionMatcher._aplicar_resultado_simple: fill the result with a
single-receipt match; success requires total score at least
SCORE_MINIMO_ACEPTABLE and an amount difference of exactly zero. -/
def aplicar_resultado_simple (resultado : ResultadoConciliacion)
    (m : Remision × MatchScore) (_factura : Factura) :
    ResultadoConciliacion :=
  let remision := m.1
  let score := m.2
  let r := { resultado with
    remision := some remision
    remisiones := [remision]
    numero_remision := some remision.id_remision
    fecha_remision := some remision.fecha_remision
    total_remision := some remision.total
    score_matching := score.score_total
    diferencia_monto := some score.diferencia_monto
    diferencia_porcentaje := some score.diferencia_porcentaje
    es_multi_remision := false }
  let r :=
    if SCORE_MINIMO_ACEPTABLE ≤ score.score_total then
      if |score.diferencia_monto| = 0 then
        { r with conciliacion_exitosa := true }
      else
        { r with alertas := r.alertas ++
            ["DIFERENCIA_MONTO: Requiere match exacto"] }
    else
      { r with alertas := r.alertas ++ ["MATCH_BAJO: Score de matching bajo"] }
  { r with alertas := r.alertas ++ score.detalles }

/-- ConciliacionMatcher._aplicar_resultado_multi: fill the result with a
multi-receipt match (comma-joined receipt ids, earliest receipt date,
summed total); success requires total score at least
SCORE_MINIMO_ACEPTABLE and an amount difference of exactly zero; the
MULTI_REMISION note is inserted at the front of the alert list. -/
def aplicar_resultado_multi (resultado : ResultadoConciliacion)
    (score : MatchScore) (_factura : Factura) : ResultadoConciliacion :=
  let r := { resultado with
    remisiones := score.remisiones
    remision := score.remisiones.head?
    numero_remision :=
      some (String.intercalate ", "
        (score.remisiones.map (fun rem : Remision => rem.id_remision)))
    fecha_remision :=
      match score.remisiones with
      | [] => none
      | h :: t => some (t.foldl
          (fun (m : ℤ) (rem : Remision) => min m rem.fecha_remision)
          h.fecha_remision)
    total_remision := some (sumTotals score.remisiones)
    score_matching := score.score_total
    diferencia_monto := some score.diferencia_monto
    diferencia_porcentaje := some score.diferencia_porcentaje
    es_multi_remision := true
    metodo_matching := "multi_remision" }
  let r :=
    if SCORE_MINIMO_ACEPTABLE ≤ score.score_total then
      if |score.diferencia_monto| = 0 then
        { r with conciliacion_exitosa := true }
      else
        { r with alertas := r.alertas ++
            ["DIFERENCIA_MONTO: Multi-remision requiere match exacto"] }
    else
      { r with alertas := r.alertas ++ ["MATCH_BAJO: Score de matching bajo"] }
  { r with alertas :=
      "MULTI_REMISION: Factura corresponde a varias remisiones" ::
        (r.alertas ++ score.detalles) }

/-- Filling of the result in the unique-match branch of
_buscar_por_numero_directo: success iff the absolute percentage difference
is at most the configured tolerance; a MATCH_DIRECTO note is inserted at
the front and the score diagnostics are appended. -/
def llenar_directo_unico (ctx : MatcherCtx) (factura : Factura)
    (resultado : ResultadoConciliacion) (remision : Remision) :
    ResultadoConciliacion :=
  let score := calcular_score ctx factura remision
  let r := { resultado with
    remision := some remision
    remisiones := [remision]
    numero_remision := some remision.id_remision
    fecha_remision := some remision.fecha_remision
    total_remision := some remision.total
    score_matching := score.score_total
    diferencia_monto := some score.diferencia_monto
    diferencia_porcentaje := some score.diferencia_porcentaje
    metodo_matching := "numero_directo" }
  let r :=
    if |score.diferencia_porcentaje| ≤ ctx.settings.tolerancia_monto_porcentaje
    then { r with conciliacion_exitosa := true }
    else { r with alertas := r.alertas ++ ["DIFERENCIA_MONTO: Diferencia"] }
  { r with alertas :=
      ("MATCH_DIRECTO: Remision indicada en factura" :: r.alertas) ++
        score.detalles }

/-- Filling of the result in the several-matches branch of
_buscar_por_numero_directo (first receipt whose issuer tax id equals the
invoice issuer): success iff the absolute percentage difference is at most
the configured tolerance; no amount alert is emitted in this branch. -/
def llenar_directo_rfc (ctx : MatcherCtx) (factura : Factura)
    (resultado : ResultadoConciliacion) (remision : Remision) :
    ResultadoConciliacion :=
  let score := calcular_score ctx factura remision
  let r := { resultado with
    remision := some remision
    remisiones := [remision]
    numero_remision := some remision.id_remision
    fecha_remision := some remision.fecha_remision
    total_remision := some remision.total
    score_matching := score.score_total
    diferencia_monto := some score.diferencia_monto
    diferencia_porcentaje := some score.diferencia_porcentaje
    metodo_matching := "numero_directo" }
  let r :=
    if |score.diferencia_porcentaje| ≤ ctx.settings.tolerancia_monto_porcentaje
    then { r with conciliacion_exitosa := true }
    else r
  { r with alertas :=
      ("MATCH_DIRECTO: Remision indicada en factura" :: r.alertas) ++
        score.detalles }

/-- ConciliacionMatcher._buscar_por_numero_directo: look the indicated
receipt number up (with the issuer tax id, falling back to an unfiltered
lookup), drop receipts already consumed in this run (the source only
filters when the consumed set is non-empty, which is extensionally the
same), then accept the unique match, or the first issuer-matching one among
several; with several matches and no issuer match, no result. -/
def buscar_por_numero_directo (ctx : MatcherCtx) (usadas : List String)
    (factura : Factura) (resultado : ResultadoConciliacion) :
    Option ResultadoConciliacion :=
  match factura.numero_remision_indicado with
  | none => none
  | some numero =>
    let remisiones := ctx.buscar_por_numero numero (some factura.rfc_emisor)
    let remisiones :=
      if remisiones = [] then ctx.buscar_por_numero numero none
      else remisiones
    if remisiones = [] then none
    else
      let remisiones :=
        remisiones.filter (fun r => !(usadas.contains r.id_remision))
      match remisiones with
      | [] => none
      | [remision] => some (llenar_directo_unico ctx factura resultado remision)
      | _ =>
        match remisiones.find?
            (fun r => decide (r.rfc_proveedor = factura.rfc_emisor)) with
        | some remision =>
          some (llenar_directo_rfc ctx factura resultado remision)
        | none => none

/-- Result filling of _buscar_por_pdf (source lines 290 to 341): totals,
percentage difference (0 when the invoice total is 0), PDF score, receipt
fields for the single- and multi-receipt shapes, the MATCH_PDF note, and
success exactly when the percentage difference is strictly below the
configured tolerance. -/
def llenar_pdf (ctx : MatcherCtx) (factura : Factura)
    (resultado : ResultadoConciliacion)
    (remisiones_encontradas : List Remision) : ResultadoConciliacion :=
  let total_remisiones := sumTotals remisiones_encontradas
  let diferencia := |factura.total - total_remisiones|
  let diferencia_pct : ℚ :=
    if factura.total ≠ 0 then diferencia / factura.total * 100
    else 0
  let score_total : ℚ :=
    if diferencia_pct < 1 then 1 else 1 - diferencia_pct / 100
  let r :=
    match remisiones_encontradas with
    | [unica] => { resultado with
        remision := some unica
        numero_remision := some unica.id_remision
        fecha_remision := some unica.fecha_remision }
    | _ => { resultado with
        numero_remision := some (String.intercalate ", "
          (remisiones_encontradas.map
            (fun rem : Remision => "R-" ++ rem.id_remision)))
        fecha_remision :=
          match remisiones_encontradas with
          | [] => none
          | h :: t => some (t.foldl
              (fun (m : ℤ) (rem : Remision) => max m rem.fecha_remision)
              h.fecha_remision) }
  let r := { r with
    remisiones := remisiones_encontradas
    total_remision := some total_remisiones
    diferencia_monto := some diferencia
    diferencia_porcentaje := some diferencia_pct
    score_matching := score_total
    metodo_matching := "pdf"
    alertas := r.alertas ++ ["MATCH_PDF: remisiones desde PDF"] }
  if diferencia_pct < ctx.settings.tolerancia_monto_porcentaje then
    let multi := decide (1 < remisiones_encontradas.length)
    { r with conciliacion_exitosa := true, es_multi_remision := multi }
  else
    { r with alertas := r.alertas ++
        ["DIFERENCIA_MONTO: PDF indica remisiones pero hay diferencia"] }

/-- ConciliacionMatcher._buscar_por_pdf: resolve receipt numbers (or a
purchase-order number) extracted from the companion PDF through exact
ledger lookups, drop receipts already consumed in this run, and fill the
result; success iff the percentage difference is strictly below the
configured tolerance. -/
def buscar_por_pdf (ctx : MatcherCtx) (usadas : List String)
    (factura : Factura) (resultado : ResultadoConciliacion) :
    Option ResultadoConciliacion :=
  match factura.archivo_xml with
  | none => none
  | some xml_path =>
    match ctx.buscar_pdf_para_xml xml_path factura.uuid with
    | none => none
    | some pdf_path =>
      let pdf_result := ctx.extraer_remisiones pdf_path
      if !pdf_result.exito then none
      else if pdf_result.remisiones_encontradas = [] &&
          !(truthyOpt pdf_result.orden_compra) then none
      else
        let remisiones_encontradas :=
          pdf_result.remisiones_encontradas.flatMap (fun num =>
            let rs := ctx.buscar_por_orden_compra num (some factura.rfc_emisor)
            if rs = [] then ctx.buscar_por_orden_compra num none else rs)
        let remisiones_encontradas :=
          if remisiones_encontradas = [] then
            match pdf_result.orden_compra with
            | some oc =>
              if oc ≠ "" then
                let rs := ctx.buscar_por_orden_compra oc (some factura.rfc_emisor)
                if rs = [] then ctx.buscar_por_orden_compra oc none else rs
              else remisiones_encontradas
            | none => remisiones_encontradas
          else remisiones_encontradas
        if remisiones_encontradas = [] then none
        else
          let remisiones_encontradas := remisiones_encontradas.filter
            (fun r => !(usadas.contains r.id_remision))
          if remisiones_encontradas = [] then none
          else some (llenar_pdf ctx factura resultado remisiones_encontradas)

/-- The freshly-created base result of conciliar_factura / conciliar_lote. -/
def resultado_base (factura : Factura) : ResultadoConciliacion :=
  { uuid_factura := factura.uuid
    identificador_factura := factura.identificador
    rfc_emisor := factura.rfc_emisor
    nombre_emisor := factura.nombre_emisor
    fecha_factura := factura.fecha_emision
    total_factura := factura.total
    remision := none
    numero_remision := none
    fecha_remision := none
    total_remision := none
    remisiones := []
    es_multi_remision := false
    conciliacion_exitosa := false
    score_matching := 0
    diferencia_monto := none
    diferencia_porcentaje := none
    alertas := []
    metodo_matching := "automatico" }

/-- The 1:1 scan of conciliar_factura: score every candidate receipt and
keep the one with strictly greater total score than the running best (ties
keep the earlier receipt). -/
def mejor_match_simple_de (ctx : MatcherCtx) (factura : Factura)
    (remisiones : List Remision) : Option (Remision × MatchScore) :=
  remisiones.foldl (fun best r =>
    let score := calcular_score ctx factura r
    match best with
    | none => some (r, score)
    | some bs =>
      if bs.2.score_total < score.score_total then some (r, score) else best)
    none

/-- Day window of the second, widened combination pass of conciliar_factura
(local constant DIAS_RANGO_SEGUNDO_PASE). -/
def DIAS_RANGO_SEGUNDO_PASE : ℤ := 30

/-- ConciliacionMatcher.conciliar_factura, with the run-scoped consumed set
passed explicitly and returned: PDF stage, direct-number stage, heuristic
retrieval with consumed-set filtering, 1:1 scan, combination search, a
widened second combination pass, and the choice between the simple and the
multi result.  The Python method never mutates the consumed set, which the
explicit state passing makes visible in the returned second component.
The source guards each consumed-set filter with an emptiness test
(if self._remisiones_usadas:); filtering against the empty set keeps every
element, so the unguarded filter used here is extensionally identical. -/
def conciliar_factura (ctx : MatcherCtx) (usadas : List String)
    (factura : Factura) : ResultadoConciliacion × List String :=
  let resultado := resultado_base factura
  match (if ctx.pdf_support && truthyOpt factura.archivo_xml then
      buscar_por_pdf ctx usadas factura resultado else none) with
  | some r => (r, usadas)
  | none =>
    match (if truthyOpt factura.numero_remision_indicado then
        buscar_por_numero_directo ctx usadas factura resultado else none) with
    | some r => (r, usadas)
    | none =>
      let remisiones := ctx.buscar_para_conciliacion factura.rfc_emisor
        factura.fecha_emision factura.total ctx.settings.dias_rango_busqueda
      let remisiones :=
        remisiones.filter (fun r => !(usadas.contains r.id_remision))
      if remisiones = [] then
        ({ resultado with alertas := resultado.alertas ++
            ["SIN_REMISION: No se encontro remision asociada"] }, usadas)
      else
        let mejor_match_simple := mejor_match_simple_de ctx factura remisiones
        let mejor_match_multi :=
          buscar_combinacion_remisiones ctx factura remisiones 15
        let necesita_segundo_pase :=
          match mejor_match_multi with
          | none => true
          | some s => decide (s.diferencia_monto ≠ 0)
        let mejor_match_multi :=
          if necesita_segundo_pase then
            let remisiones_ampliadas :=
              (ctx.buscar_para_conciliacion factura.rfc_emisor
                factura.fecha_emision factura.total
                DIAS_RANGO_SEGUNDO_PASE).filter
                (fun r => !(usadas.contains r.id_remision))
            if remisiones.length < remisiones_ampliadas.length then
              match buscar_combinacion_remisiones ctx factura
                  remisiones_ampliadas 30 with
              | none => mejor_match_multi
              | some segundo_pase =>
                match mejor_match_multi with
                | none => some segundo_pase
                | some m =>
                  if m.score_total < segundo_pase.score_total then
                    some segundo_pase
                  else some m
            else mejor_match_multi
          else mejor_match_multi
        let usar_multi : Bool :=
          match mejor_match_multi, mejor_match_simple with
          | some m, some s =>
            decide (s.2.score_total < m.score_total) ||
              decide (|m.diferencia_porcentaje| < |s.2.diferencia_porcentaje|)
          | some _, none => true
          | _, _ => false
        match (if usar_multi then mejor_match_multi else none) with
        | some m => (aplicar_resultado_multi resultado m factura, usadas)
        | none =>
          match mejor_match_simple with
          | some ms => (aplicar_resultado_simple resultado ms factura, usadas)
          | none => (resultado, usadas)

/-- A candidate offered to the batch assigner: either one receipt or a
multi-receipt combination (the Python code distinguishes the two cases by
an isinstance check on list). -/
inductive RemCand where
  | simple (r : Remision)
  | multi (rs : List Remision)
deriving DecidableEq, Repr

/-- Insertion of a string into a lexicographically sorted list. -/
def insertar_ordenado (x : String) : List String → List String
  | [] => [x]
  | y :: ys => if x ≤ y then x :: y :: ys else y :: insertar_ordenado x ys

/-- Lexicographic sort of a list of strings (Python sorted). -/
def ordenar_ids (l : List String) : List String :=
  l.foldr insertar_ordenado []

/-- Column identifier of a candidate in the assignment matrix: the receipt
id for a single receipt, or MULTI_ followed by the sorted member ids joined
with underscores for a combination. -/
def rem_cand_id : RemCand → String
  | .multi rs =>
    "MULTI_" ++ String.intercalate "_"
      (ordenar_ids (rs.map (fun r => r.id_remision)))
  | .simple r => r.id_remision

/-- Lookup in an insertion-ordered string-keyed dictionary (Python dict). -/
def dict_get {β : Type} (m : List (String × β)) (k : String) : Option β :=
  (m.find? (fun kv => decide (kv.1 = k))).map (fun kv => kv.2)

/-- Insertion or in-place overwrite in an insertion-ordered string-keyed
dictionary: a Python dict assignment keeps the original key position. -/
def dict_upsert {β : Type} (m : List (String × β)) (k : String) (v : β) :
    List (String × β) :=
  if m.any (fun kv => decide (kv.1 = k)) then
    m.map (fun kv => if kv.1 = k then (k, v) else kv)
  else m ++ [(k, v)]

/-- Phase 1 of conciliar_lote for one invoice: retrieve candidates, keep
every single receipt whose amount difference is exactly zero, and append
the multi-receipt combination when the combination search finds one with
exactly zero difference.  The todas_remisiones dictionary of the source is
used only for conflict logging and is not modelled. -/
def candidatas_de_factura (ctx : MatcherCtx) (factura : Factura) :
    List (RemCand × MatchScore) :=
  let remisiones := ctx.buscar_para_conciliacion factura.rfc_emisor
    factura.fecha_emision factura.total ctx.settings.dias_rango_busqueda
  if remisiones = [] then []
  else
    let candidatas := remisiones.foldl (fun acc r =>
      let score := calcular_score ctx factura r
      if score.diferencia_monto = 0 then acc ++ [(RemCand.simple r, score)]
      else acc) []
    match buscar_combinacion_remisiones ctx factura remisiones 15 with
    | some match_multi =>
      if match_multi.diferencia_monto = 0 then
        candidatas ++ [(RemCand.multi match_multi.remisiones, match_multi)]
      else candidatas
    | none => candidatas

/-- The candidatas_por_factura dictionary of conciliar_lote: invoices with a
non-empty candidate list, keyed by invoice UUID. -/
def candidatas_por_factura_de (ctx : MatcherCtx) (facturas : List Factura) :
    List (String × List (RemCand × MatchScore)) :=
  facturas.foldl (fun m f =>
    let c := candidatas_de_factura ctx f
    if c = [] then m else dict_upsert m f.uuid c) []

/-- The invoices of the batch that obtained an exact-difference candidate. -/
def facturas_con_candidatas_de (facturas : List Factura)
    (mapa : List (String × List (RemCand × MatchScore))) : List Factura :=
  facturas.filter (fun f => (dict_get mapa f.uuid).isSome)

/-- The invoices of the batch without any exact-difference candidate. -/
def facturas_sin_candidatas_de (facturas : List Factura)
    (mapa : List (String × List (RemCand × MatchScore))) : List Factura :=
  facturas.filter (fun f => !(dict_get mapa f.uuid).isSome)

/-- Candidate list of one invoice in the dictionary, defaulting to the
empty list. -/
def dict_get_list (mapa : List (String × List (RemCand × MatchScore)))
    (k : String) : List (RemCand × MatchScore) :=
  (dict_get mapa k).getD []

/-- Column collection of _resolver_asignacion_optima: walk the invoices in
order and their candidates in order, giving every distinct column id
(single receipt id or MULTI_ combination id) one column, first occurrence
wins. -/
def recolectar_columnas (facturas : List Factura)
    (mapa : List (String × List (RemCand × MatchScore))) :
    List (String × RemCand × MatchScore) :=
  (facturas.foldl
    (fun (acc : List (String × RemCand × MatchScore) × List String) f =>
      match dict_get mapa f.uuid with
      | none => acc
      | some cands => cands.foldl (fun acc2 cs =>
          let rid := rem_cand_id cs.1
          if acc2.2.contains rid then acc2
          else (acc2.1 ++ [(rid, cs.1, cs.2)], acc2.2 ++ [rid])) acc)
    ([], [])).1

/-- The sentinel cost of an infeasible pair (local constant COSTO_ALTO). -/
def COSTO_ALTO : ℚ := 1000000

/-- The cost matrix of _resolver_asignacion_optima: for a feasible
(invoice, column) pair the cost is minus the total score plus a small
per-day penalty; everything else is the sentinel.  The Python code fills
the matrix by iterating each invoice's candidates, so for repeated column
ids the last write wins, which the getLast? mirrors. -/
def costo_matriz (mapa : List (String × List (RemCand × MatchScore)))
    (facturas : List Factura)
    (columnas : List (String × RemCand × MatchScore)) (i j : ℕ) : ℚ :=
  match facturas[i]?, columnas[j]? with
  | some f, some col =>
    (match ((dict_get_list mapa f.uuid).filter
        (fun cs => decide (rem_cand_id cs.1 = col.1))).getLast? with
     | some cs => -cs.2.score_total + (cs.2.dias_diferencia : ℚ) * 0.001
     | none => COSTO_ALTO)
  | _, _ => COSTO_ALTO

/-- Interface of the external bipartite assignment solver
(scipy.optimize.linear_sum_assignment): given the two dimensions and the
cost matrix it returns the list of assigned (row, column) pairs, or none
when it raises. -/
def Solver : Type :=
  ℕ → ℕ → (ℕ → ℕ → ℚ) → Option (List (ℕ × ℕ))

/-- ConciliacionMatcher._resolver_asignacion_optima: empty invoice list or
empty column list yield the empty assignment; a solver failure yields the
empty assignment; otherwise the solver pairs are post-processed in order,
skipping sentinel costs and any pair whose receipt set overlaps receipts
already accepted in this resolution pass. -/
def resolver_asignacion_optima
    (mapa : List (String × List (RemCand × MatchScore)))
    (facturas : List Factura) (solver : Solver) :
    List (String × RemCand × MatchScore) :=
  if facturas = [] then []
  else
    let columnas := recolectar_columnas facturas mapa
    if columnas = [] then []
    else
      match solver facturas.length columnas.length
          (costo_matriz mapa facturas columnas) with
      | none => []
      | some pares =>
        (pares.foldl
          (fun (st : List (String × RemCand × MatchScore) × List String)
              par =>
            if COSTO_ALTO - 1 ≤ costo_matriz mapa facturas columnas
                par.1 par.2 then st
            else
              match facturas[par.1]?, columnas[par.2]? with
              | some f, some col =>
                let rid := col.1
                if rid.startsWith "MULTI_" then
                  let indiv := (rid.replace "MULTI_" "").splitOn "_"
                  if indiv.any (fun x => st.2.contains x) then st
                  else
                    match (dict_get_list mapa f.uuid).find?
                        (fun cs => decide (rem_cand_id cs.1 = rid)) with
                    | some cs =>
                      (st.1 ++ [(f.uuid, col.2.1, cs.2)], st.2 ++ indiv)
                    | none => (st.1, st.2 ++ indiv)
                else
                  if st.2.contains rid then st
                  else
                    match (dict_get_list mapa f.uuid).find?
                        (fun cs => decide (rem_cand_id cs.1 = rid)) with
                    | some cs =>
                      (st.1 ++ [(f.uuid, col.2.1, cs.2)], st.2 ++ [rid])
                    | none => (st.1, st.2 ++ [rid])
              | _, _ => st)
          ([], [])).1

/-- Lookup of one invoice's assignment. -/
def asig_get (asigs : List (String × RemCand × MatchScore)) (k : String) :
    Option (RemCand × MatchScore) :=
  (asigs.find? (fun a => decide (a.1 = k))).map (fun a => a.2)

/-- Set-style insertion into the run-scoped consumed list (Python set.add). -/
def agregar_usada (u : List String) (x : String) : List String :=
  if u.contains x then u else u ++ [x]

/-- Registration step of conciliar_lote: add every receipt id of every
accepted assignment to the run-scoped consumed set. -/
def registrar_asignaciones (asigs : List (String × RemCand × MatchScore))
    (usadas : List String) : List String :=
  asigs.foldl (fun u a =>
    match a.2.1 with
    | .multi rs => rs.foldl (fun u2 r => agregar_usada u2 r.id_remision) u
    | .simple r => agregar_usada u r.id_remision) usadas

/-- The fallback branch of phase 3 of conciliar_lote for an invoice whose
exact candidates were assigned elsewhere: rerun conciliar_factura; keep its
result when successful or when it at least attached a receipt, otherwise
keep the fresh result with a SIN_REMISION_DISPONIBLE alert. -/
def lote_fallback_factura (ctx : MatcherCtx) (usadas : List String)
    (factura : Factura) : ResultadoConciliacion × List String :=
  let resultado := resultado_base factura
  let fb := conciliar_factura ctx usadas factura
  if fb.1.conciliacion_exitosa then fb
  else
    let resultado := { resultado with alertas := resultado.alertas ++
      ["SIN_REMISION_DISPONIBLE: Las remisiones exactas fueron asignadas a otras facturas"] }
    let resultado := if fb.1.remision.isSome then fb.1 else resultado
    (resultado, fb.2)

/-- Phase 3 step of conciliar_lote for one invoice that had exact
candidates: apply its optimal assignment (multi or single, the single case
marked successful unconditionally), or fall back to per-invoice
reconciliation when it received no assignment. -/
def lote_paso_con_candidatas (ctx : MatcherCtx)
    (asigs : List (String × RemCand × MatchScore))
    (st : List ResultadoConciliacion × List String) (factura : Factura) :
    List ResultadoConciliacion × List String :=
  let resultado := resultado_base factura
  match asig_get asigs factura.uuid with
  | some (cand, score) =>
    match cand with
    | .multi _ =>
      (st.1 ++ [aplicar_resultado_multi resultado score factura], st.2)
    | .simple remision =>
      (st.1 ++ [{ resultado with
        remision := some remision
        remisiones := [remision]
        numero_remision := some remision.id_remision
        fecha_remision := some remision.fecha_remision
        total_remision := some remision.total
        score_matching := score.score_total
        diferencia_monto := some score.diferencia_monto
        diferencia_porcentaje := some score.diferencia_porcentaje
        es_multi_remision := false
        conciliacion_exitosa := true }], st.2)
  | none =>
    let fb := lote_fallback_factura ctx st.2 factura
    (st.1 ++ [fb.1], fb.2)

/-- ConciliacionMatcher.conciliar_lote: clear the consumed set, collect
exact candidates per invoice (phase 1), solve the optimal assignment
(phase 2), register the assigned receipt ids, then emit results for the
invoices with candidates (assigned or fallback) followed by the invoices
without candidates (per-invoice reconciliation), threading the consumed
set. -/
def conciliar_lote (ctx : MatcherCtx) (solver : Solver)
    (facturas : List Factura) : List ResultadoConciliacion × List String :=
  let usadas : List String := []
  let mapa := candidatas_por_factura_de ctx facturas
  let facturas_con := facturas_con_candidatas_de facturas mapa
  let facturas_sin := facturas_sin_candidatas_de facturas mapa
  let asignaciones := resolver_asignacion_optima mapa facturas_con solver
  let usadas := registrar_asignaciones asignaciones usadas
  let st := facturas_con.foldl (lote_paso_con_candidatas ctx asignaciones)
    ([], usadas)
  facturas_sin.foldl (fun st2 f =>
    let fb := conciliar_factura ctx st2.2 f
    (st2.1 ++ [fb.1], fb.2)) st

/-- Loop of detectar_remisiones_duplicadas: walk the results keeping a
dictionary from seen numero_remision strings to the first invoice UUID
carrying them; a repeated string appends a duplicate alert. -/
def detectar_loop : List ResultadoConciliacion → List String →
    List (String × String) → List String
  | [], alertas, _ => alertas
  | resultado :: rest, alertas, remisiones_usadas =>
    match resultado.numero_remision with
    | some s =>
      if s ≠ "" then
        match remisiones_usadas.find? (fun kv => decide (kv.1 = s)) with
        | some kv =>
          detectar_loop rest
            (alertas ++ ["REMISION_DUPLICADA: Remision " ++ s ++
              " vinculada a facturas " ++ kv.2 ++ " y " ++
              resultado.uuid_factura])
            remisiones_usadas
        | none =>
          detectar_loop rest alertas
            (remisiones_usadas ++ [(s, resultado.uuid_factura)])
      else detectar_loop rest alertas remisiones_usadas
    | none => detectar_loop rest alertas remisiones_usadas

/-- ConciliacionMatcher.detectar_remisiones_duplicadas: post-hoc audit that
reports every result whose numero_remision string was already seen,
character for character, on an earlier result. -/
def detectar_remisiones_duplicadas
    (resultados : List ResultadoConciliacion) : List String :=
  detectar_loop resultados [] []

/-- Specification-side description of what the combination search actually
returns under its hard-coded zero tolerance: the first combination in
enumeration order whose receipt totals sum exactly to the invoice total
(scored as a combination), none otherwise, with the same eligibility
filter, two-candidate minimum and pool truncation as the source. -/
def combinacion_exacta_especificada (ctx : MatcherCtx) (factura : Factura)
    (remisiones : List Remision) (limite_candidatas : ℕ) :
    Option MatchScore :=
  let candidatas := remisiones.filter
    (fun r => decide (r.total ≤ factura.total) && !(r.esta_facturada))
  if candidatas.length < 2 then none
  else
    ((combos_enumerados
        (candidatas.take (min candidatas.length limite_candidatas))).find?
      (fun combo => decide (sumTotals combo = factura.total))).map
      (calcular_score_multi ctx factura)

/-- Specification-side percentage difference: the absolute amount gap over
the invoice total, times 100; treated as 100 percent when the invoice total
is not positive. -/
def porcentaje_especificado (total_factura suma_remisiones : ℚ) : ℚ :=
  if total_factura > 0 then
    |total_factura - suma_remisiones| / total_factura * 100
  else 100

/-- Specification-side amount band: difference at most the tolerance gives
1.0; at most twice the tolerance gives 0.7 (0.8 for combinations); at most
10 percent gives 0.5 (0.6 for combinations); otherwise
max 0 (1 - pct / 50). -/
def banda_monto_especificada (es_combinacion : Bool) (tolerancia pct : ℚ) :
    ℚ :=
  if pct ≤ tolerancia then 1
  else if pct ≤ 2 * tolerancia then (if es_combinacion then 0.8 else 0.7)
  else if pct ≤ 10 then (if es_combinacion then 0.6 else 0.5)
  else max 0 (1 - pct / 50)

/-- Specification-side single-receipt date band on the absolute day gap. -/
def banda_fecha_especificada (dias : ℤ) : ℚ :=
  if dias ≤ 1 then 1
  else if dias ≤ 3 then 0.9
  else if dias ≤ 7 then 0.7
  else if dias ≤ 14 then 0.5
  else max 0 (1 - (dias : ℚ) / 30)


/-- Specification-side pair predicate for duplicate detection: the two
results do not carry the same non-empty numero_remision string. -/
def sin_par_duplicado (a b : ResultadoConciliacion) : Prop :=
  ∀ s : String, s ≠ "" → a.numero_remision = some s →
    b.numero_remision ≠ some s

/-- Specification-side duplicate predicate: two results at distinct
positions carry character-for-character equal non-empty numero_remision
strings. -/
def existe_duplicado (resultados : List ResultadoConciliacion) : Prop :=
  ∃ i j : ℕ, ∃ hi : i < resultados.length, ∃ hj : j < resultados.length,
    i ≠ j ∧ ∃ s : String, s ≠ "" ∧
      (resultados.get ⟨i, hi⟩).numero_remision = some s ∧
      (resultados.get ⟨j, hj⟩).numero_remision = some s

/-- A solver that always raises, modelling a scipy failure. -/
def solver_fallido : Solver := fun _ _ _ => none

/-! ### Concrete fixtures for witnesses, counterexamples and evaluations -/

/-- Default configuration values of config/settings.py. -/
def ajustesW : Settings :=
  { tolerancia_monto_porcentaje := 2, dias_rango_busqueda := 15,
    dias_alerta_desfase := 7, umbral_similitud_texto := 80 }

/-- A context with the default configuration and an empty ledger. -/
def ctxW : MatcherCtx :=
  { settings := ajustesW
    fuzz_token_sort_ratio := fun _ _ => 0
    buscar_para_conciliacion := fun _ _ _ _ => []
    buscar_por_numero := fun _ _ => []
    buscar_por_orden_compra := fun _ _ => []
    pdf_support := false
    buscar_pdf_para_xml := fun _ _ => none
    extraer_remisiones := fun _ =>
      { exito := false, remisiones_encontradas := [], orden_compra := none } }

/-- A plain unlinked receipt of total 100. -/
def remW : Remision :=
  { id_remision := "R1", numero_remision := "R1", fecha_remision := 0,
    rfc_proveedor := "RFCX", total := 100, detalles := [],
    uuid_factura_vinculada := none, uuid_factura := none,
    estatus := EstatusRemision.pendiente }

/-- The receipt remW dated three days before the invoice. -/
def rW3 : Remision := { remW with fecha_remision := -3 }

/-- The receipt remW dated ten days before the invoice. -/
def rW10 : Remision := { remW with fecha_remision := -10 }

/-- A plain invoice of total 100 with no hints. -/
def fW : Factura :=
  { uuid := "F1", identificador := "F1", rfc_emisor := "RFCX",
    nombre_emisor := "Prov", fecha_emision := 0, total := 100,
    conceptos := [], numero_remision_indicado := none, archivo_xml := none }

/-- The invoice fW with total 0. -/
def fW0 : Factura := { fW with total := 0 }

/-- A second invoice identical to fW except for its identifiers. -/
def fC1b : Factura := { fW with uuid := "F2", identificador := "F2" }

/-- A context whose ledger always offers the single receipt remW for the
issuer of fW. -/
def ctx_c1 : MatcherCtx :=
  { ctxW with buscar_para_conciliacion :=
      fun rfc _ _ _ => if rfc = "RFCX" then [remW] else [] }

/-- Three distinct receipts of equal total 2112 for the batch scenario. -/
def rBatchA : Remision :=
  { remW with id_remision := "A", numero_remision := "A", total := 2112 }

/-- Second receipt of total 2112. -/
def rBatchB : Remision :=
  { rBatchA with id_remision := "B", numero_remision := "B" }

/-- Third receipt of total 2112. -/
def rBatchC : Remision :=
  { rBatchA with id_remision := "C", numero_remision := "C" }

/-- A context whose ledger offers the three receipts of total 2112. -/
def ctx_c2 : MatcherCtx :=
  { ctxW with buscar_para_conciliacion :=
      fun rfc _ _ _ => if rfc = "RFCX" then [rBatchA, rBatchB, rBatchC]
        else [] }

/-- First invoice of total 2112. -/
def gW1 : Factura := { fW with uuid := "G1", identificador := "G1", total := 2112 }

/-- Second invoice of total 2112. -/
def gW2 : Factura := { gW1 with uuid := "G2", identificador := "G2" }

/-- Third invoice of total 2112. -/
def gW3 : Factura := { gW1 with uuid := "G3", identificador := "G3" }

/-- The property claimed for the batch of three equal invoices against
three equal receipts, for the solver matching row i to column ci: the batch
produces three results, every result is successful with exactly one
receipt, and no receipt id appears in two results. -/
def c2_propiedad (c0 c1 c2 : ℕ) : Prop :=
  let solver : Solver := fun _ _ _ => some [(0, c0), (1, c1), (2, c2)]
  let res := (conciliar_lote ctx_c2 solver [gW1, gW2, gW3]).1
  res.length = 3 ∧
    (∀ r ∈ res, r.conciliacion_exitosa = true ∧ r.remisiones.length = 1) ∧
    res.Pairwise (fun a b =>
      ∀ s ∈ a.remisiones.map (fun x => x.id_remision),
        s ∉ b.remisiones.map (fun x => x.id_remision))

/-- Receipt of total 50 for the near-tolerance combination scenario. -/
def rQ50 : Remision := { remW with id_remision := "Q50", total := 50 }

/-- Receipt of total 49 for the near-tolerance combination scenario. -/
def rQ49 : Remision := { remW with id_remision := "Q49", total := 49 }

/-- One of fifteen head receipts of total 7 for the truncation scenario. -/
def cab7 (i : ℕ) : Remision :=
  { remW with id_remision := "H" ++ toString i, total := 7 }

/-- Tail receipt of total 60 (member of the exact pair). -/
def b60 : Remision := { remW with id_remision := "B60", total := 60 }

/-- Tail receipt of total 40 (member of the exact pair). -/
def b40 : Remision := { remW with id_remision := "B40", total := 40 }

/-- Pool of 20 eligible receipts whose only exact-sum combination (60 and
40) sits at positions 16 and 17 of the retrieval order, past the default
truncation bound of 15. -/
def pool20 : List Remision :=
  ((List.range 15).map cab7) ++ [b60, b40] ++
    ((List.range 3).map (fun i => cab7 (i + 15)))

/-- Concrete result carrying the single receipt number 123. -/
def resS : ResultadoConciliacion :=
  { resultado_base fW with numero_remision := some "123" }

/-- Concrete result carrying the comma-joined multi-receipt string that
contains 123 as a member. -/
def resM : ResultadoConciliacion :=
  { resultado_base fC1b with numero_remision := some "120, 123" }

/-- Concrete result carrying the same single receipt number 123. -/
def resS2 : ResultadoConciliacion :=
  { resultado_base fC1b with numero_remision := some "123" }

/-! ## Helper lemmas -/

/-- The per-invoice entry point never mutates the consumed set: every
branch of conciliar_factura returns the set it received. -/
theorem conciliar_factura_preserva_usadas (ctx : MatcherCtx)
    (usadas : List String) (factura : Factura) :
    (conciliar_factura ctx usadas factura).2 = usadas := by
  unfold conciliar_factura
  dsimp only
  repeat' split
  all_goals rfl

/-- Starting from empty running bests, the combination loop returns exactly
the score of the first combination whose sum equals the invoice total: the
zero tolerance makes every non-exact branch unreachable. -/
theorem buscar_combinacion_loop_exacta (ctx : MatcherCtx)
    (factura : Factura) (pxml : ℕ) (combos : List (List Remision)) :
    buscar_combinacion_loop ctx factura pxml combos none none =
      (combos.find?
        (fun combo => decide (sumTotals combo = factura.total))).map
        (calcular_score_multi ctx factura) := by
  induction combos with
  | nil => rfl
  | cons c rest ih =>
    rw [buscar_combinacion_loop, List.find?]
    dsimp only
    have htd : tolerancia_decimal = 0 := by norm_num [tolerancia_decimal]
    by_cases h : |factura.total - sumTotals c| ≤ tolerancia_decimal
    · have h0 : |factura.total - sumTotals c| = 0 := by
        have h' : |factura.total - sumTotals c| ≤ 0 := by rwa [htd] at h
        exact le_antisymm h' (abs_nonneg _)
      have hs : sumTotals c = factura.total := by
        have h1 := abs_eq_zero.mp h0
        linarith
      rw [if_pos h, if_pos h0]
      simp [hs]
    · have hs : ¬ (sumTotals c = factura.total) := by
        intro he
        exact h (by rw [htd]; simp [he])
      rw [if_neg h, ih]
      simp [hs]

/-- The combination search equals its exact-only specification. -/
theorem buscar_combinacion_eq_exacta (ctx : MatcherCtx) (factura : Factura)
    (remisiones : List Remision) (limite_candidatas : ℕ) :
    buscar_combinacion_remisiones ctx factura remisiones limite_candidatas =
      combinacion_exacta_especificada ctx factura remisiones
        limite_candidatas := by
  unfold buscar_combinacion_remisiones combinacion_exacta_especificada
  dsimp only
  split
  · rfl
  · rw [buscar_combinacion_loop_exacta]

/-- Every member of the itertools-order combination enumeration has the
requested size and is a sublist of the pool. -/
theorem mem_combinaciones {α : Type} :
    ∀ (l : List α) (n : ℕ) (c : List α), c ∈ combinaciones l n →
      c.length = n ∧ c.Sublist l := by
  intro l
  induction l with
  | nil =>
    intro n c hc
    cases n with
    | zero =>
      simp only [combinaciones, List.mem_singleton] at hc
      subst hc
      exact ⟨rfl, List.Sublist.refl _⟩
    | succ m => simp [combinaciones] at hc
  | cons x xs ih =>
    intro n c hc
    cases n with
    | zero =>
      simp only [combinaciones, List.mem_singleton] at hc
      subst hc
      exact ⟨rfl, List.nil_sublist _⟩
    | succ m =>
      simp only [combinaciones, List.mem_append, List.mem_map] at hc
      rcases hc with ⟨c', hc', rfl⟩ | hc
      · obtain ⟨hl, hs⟩ := ih m c' hc'
        exact ⟨by simp [hl], List.Sublist.cons₂ x hs⟩
      · obtain ⟨hl, hs⟩ := ih (m + 1) c hc
        exact ⟨hl, hs.cons x⟩

/-- Auxiliary unfolding of the receipt-total sum. -/
theorem sumTotals_cons (r : Remision) (rs : List Remision) :
    sumTotals (r :: rs) = r.total + sumTotals rs := by
  have haux : ∀ (l : List Remision) (acc : ℚ),
      l.foldl (fun a q => a + q.total) acc =
        acc + l.foldl (fun a q => a + q.total) 0 := by
    intro l
    induction l with
    | nil => intro acc; simp
    | cons q l ihl =>
      intro acc
      simp only [List.foldl]
      rw [ihl (acc + q.total), ihl (0 + q.total)]
      ring
  show (r :: rs).foldl (fun acc q => acc + q.total) 0 =
    r.total + rs.foldl (fun acc q => acc + q.total) 0
  simp only [List.foldl]
  rw [haux rs (0 + r.total)]
  ring

/-- In a pool whose receipts all have the same total, every combination
sums to that total times its size. -/
theorem sumTotals_const (t : ℚ) :
    ∀ (c : List Remision), (∀ r ∈ c, r.total = t) →
      sumTotals c = t * c.length := by
  intro c
  induction c with
  | nil => intro _; simp [sumTotals]
  | cons r rs ih =>
    intro h
    rw [sumTotals_cons, h r (by simp), ih (fun q hq => h q (by simp [hq])),
      List.length_cons]
    push_cast
    ring

/-- The single-receipt scorer computes exactly the specified date band of
the absolute day gap. -/
theorem calcular_score_fecha_eq (ctx : MatcherCtx) (factura : Factura)
    (remision : Remision) :
    (calcular_score ctx factura remision).score_fecha =
      banda_fecha_especificada
        |factura.fecha_emision - remision.fecha_remision| := by
  rfl

/-- The specified date band is antitone: a larger day gap never yields a
larger band value. -/
theorem banda_fecha_antitona {d1 d2 : ℤ} (h : d1 ≤ d2) :
    banda_fecha_especificada d2 ≤ banda_fecha_especificada d1 := by
  have hc : (d1 : ℚ) ≤ (d2 : ℚ) := by exact_mod_cast h
  have hcola : ∀ d : ℤ, 14 < d →
      banda_fecha_especificada d = max 0 (1 - (d : ℚ) / 30) := by
    intro d hd
    unfold banda_fecha_especificada
    split_ifs <;> first | (exfalso <;> omega) | rfl
  have hcabeza : ∀ d : ℤ, d ≤ 14 → (0.5 : ℚ) ≤ banda_fecha_especificada d := by
    intro d hd
    unfold banda_fecha_especificada
    split_ifs <;> first | (exfalso <;> omega) | norm_num
  rcases lt_or_le 14 d2 with hd2 | hd2
  · rw [hcola d2 hd2]
    rcases lt_or_le 14 d1 with hd1 | hd1
    · rw [hcola d1 hd1]
      exact max_le_max (le_refl 0) (by linarith)
    · have hup : max (0 : ℚ) (1 - (d2 : ℚ) / 30) ≤ 0.5 := by
        apply max_le (by norm_num)
        have h15 : (15 : ℚ) ≤ (d2 : ℚ) := by
          exact_mod_cast (by omega : (15 : ℤ) ≤ d2)
        linarith
      exact le_trans hup (hcabeza d1 hd1)
  · have hd1 : d1 ≤ 14 := le_trans h hd2
    unfold banda_fecha_especificada
    split_ifs <;> first | (exfalso <;> omega) | norm_num


/-- Both if-chains of the amount band agree up to the commuted double
tolerance. -/
theorem banda_flip (tol p a b : ℚ) :
    (if p ≤ tol then (1 : ℚ) else if p ≤ tol * 2 then a else if p ≤ 10 then b
      else max 0 (1 - p / 50)) =
    (if p ≤ tol then 1 else if p ≤ 2 * tol then a else if p ≤ 10 then b
      else max 0 (1 - p / 50)) := by
  rw [mul_comm tol 2]

/-! ## Claim C5 -/

/-- C5: the amount sub-score computed by the single-receipt scorer and by
the combination scorer equals the specified band of the percentage
difference (tolerance, double tolerance with 0.7 or 0.8, ten percent with
0.5 or 0.6, then max 0 (1 - pct/50)); a zero invoice total is treated as a
100 percent difference and yields amount sub-score 0 for any tolerance
below 50. -/
theorem c5_banda_monto (ctx : MatcherCtx) (factura : Factura)
    (remision : Remision) (remisiones : List Remision) :
    ((calcular_score ctx factura remision).score_monto =
      banda_monto_especificada false ctx.settings.tolerancia_monto_porcentaje
        (porcentaje_especificado factura.total remision.total)) ∧
    ((calcular_score_multi ctx factura remisiones).score_monto =
      banda_monto_especificada true ctx.settings.tolerancia_monto_porcentaje
        (porcentaje_especificado factura.total (sumTotals remisiones))) ∧
    (factura.total = 0 → ctx.settings.tolerancia_monto_porcentaje < 50 →
      (calcular_score ctx factura remision).score_monto = 0 ∧
      (calcular_score_multi ctx factura remisiones).score_monto = 0) := by
  have hbase : ∀ es : Bool, ∀ suma : ℚ,
      (let p := if factura.total > 0 then
          |factura.total - suma| / factura.total * 100 else 100
       if p ≤ ctx.settings.tolerancia_monto_porcentaje then (1 : ℚ)
       else if p ≤ ctx.settings.tolerancia_monto_porcentaje * 2 then
         (if es then 0.8 else 0.7)
       else if p ≤ 10 then (if es then 0.6 else 0.5)
       else max 0 (1 - p / 50)) =
      banda_monto_especificada es ctx.settings.tolerancia_monto_porcentaje
        (porcentaje_especificado factura.total suma) := by
    intro es suma
    unfold banda_monto_especificada porcentaje_especificado
    dsimp only
    rw [banda_flip]
  refine ⟨by exact hbase false remision.total, by exact hbase true _, ?_⟩
  intro h0 htol
  have hp100 : ∀ suma : ℚ,
      porcentaje_especificado factura.total suma = 100 := by
    intro suma
    unfold porcentaje_especificado
    rw [h0]
    norm_num
  have hb0 : ∀ es : Bool, banda_monto_especificada es
      ctx.settings.tolerancia_monto_porcentaje 100 = 0 := by
    intro es
    unfold banda_monto_especificada
    rw [if_neg (by linarith), if_neg (by linarith), if_neg (by norm_num)]
    norm_num
  constructor
  · rw [show (calcular_score ctx factura remision).score_monto =
        banda_monto_especificada false ctx.settings.tolerancia_monto_porcentaje
          (porcentaje_especificado factura.total remision.total) from
        hbase false remision.total, hp100 remision.total]
    exact hb0 false
  · rw [show (calcular_score_multi ctx factura remisiones).score_monto =
        banda_monto_especificada true ctx.settings.tolerancia_monto_porcentaje
          (porcentaje_especificado factura.total (sumTotals remisiones)) from
        hbase true _, hp100 (sumTotals remisiones)]
    exact hb0 true

/-! ## Claim C7 -/

/-- C7: for two single-receipt score computations over the same invoice and
receipts identical except in date, the smaller absolute day gap never gets
the smaller date sub-score: the date band is a non-increasing function of
the absolute day gap. -/
theorem c7_score_fecha_monotono (ctx : MatcherCtx) (factura : Factura)
    (r1 r2 : Remision)
    (_higuales : { r1 with fecha_remision := 0 } =
      { r2 with fecha_remision := 0 })
    (hgap : |factura.fecha_emision - r1.fecha_remision| ≤
      |factura.fecha_emision - r2.fecha_remision|) :
    (calcular_score ctx factura r2).score_fecha ≤
      (calcular_score ctx factura r1).score_fecha := by
  rw [calcular_score_fecha_eq, calcular_score_fecha_eq]
  exact banda_fecha_antitona hgap

/-- Witness for C5: at the default tolerance 2 percent, the zero-total
invoice receives amount sub-score 0 in both scorers. -/
theorem c5_banda_monto_witness :
    (calcular_score ctxW fW0 remW).score_monto = 0 ∧
    (calcular_score_multi ctxW fW0 [remW]).score_monto = 0 :=
  (c5_banda_monto ctxW fW0 remW [remW]).2.2 rfl (by decide)

/-- Witness for C7: day gaps 3 versus 10 around the same invoice give date
sub-scores in the claimed order. -/
theorem c7_score_fecha_monotono_witness :
    |fW.fecha_emision - rW3.fecha_remision| ≤
      |fW.fecha_emision - rW10.fecha_remision| ∧
    (calcular_score ctxW fW rW10).score_fecha ≤
      (calcular_score ctxW fW rW3).score_fecha :=
  ⟨by decide, c7_score_fecha_monotono ctxW fW rW3 rW10 rfl (by decide)⟩

/-! ## Claim C9 -/

/-- The fallback step of phase 3 never mutates the consumed set. -/
theorem lote_fallback_preserva_usadas (ctx : MatcherCtx)
    (usadas : List String) (factura : Factura) :
    (lote_fallback_factura ctx usadas factura).2 = usadas := by
  unfold lote_fallback_factura
  dsimp only
  split
  · exact conciliar_factura_preserva_usadas ctx usadas factura
  · exact conciliar_factura_preserva_usadas ctx usadas factura

/-- One phase-3 step over an invoice with candidates never mutates the
consumed set. -/
theorem lote_paso_preserva_usadas (ctx : MatcherCtx)
    (asigs : List (String × RemCand × MatchScore))
    (st : List ResultadoConciliacion × List String) (factura : Factura) :
    (lote_paso_con_candidatas ctx asigs st factura).2 = st.2 := by
  unfold lote_paso_con_candidatas
  dsimp only
  split
  · split <;> rfl
  · exact lote_fallback_preserva_usadas ctx st.2 factura

/-- Folding phase 3 over any list of invoices with candidates leaves the
consumed set component untouched. -/
theorem foldl_paso_preserva_usadas (ctx : MatcherCtx)
    (asigs : List (String × RemCand × MatchScore)) :
    ∀ (l : List Factura) (st : List ResultadoConciliacion × List String),
      (l.foldl (lote_paso_con_candidatas ctx asigs) st).2 = st.2 := by
  intro l
  induction l with
  | nil => intro st; rfl
  | cons f t ih =>
    intro st
    rw [List.foldl_cons, ih, lote_paso_preserva_usadas]

/-- Folding the no-candidate tail of phase 3 leaves the consumed set
component untouched. -/
theorem foldl_sin_preserva_usadas (ctx : MatcherCtx) :
    ∀ (l : List Factura) (st : List ResultadoConciliacion × List String),
      (l.foldl (fun st2 f =>
        let fb := conciliar_factura ctx st2.2 f
        (st2.1 ++ [fb.1], fb.2)) st).2 = st.2 := by
  intro l
  induction l with
  | nil => intro st; rfl
  | cons f t ih =>
    intro st
    rw [List.foldl_cons, ih]
    exact conciliar_factura_preserva_usadas ctx st.2 f

/-- C9: a conciliar_factura call leaves the consumed set exactly as it
received it, whether or not a match was produced; and across a whole batch
the final consumed set is exactly what the optimal-assignment registration
added to the cleared set, conciliar_lote being the only writer. -/
theorem c9_usadas_sin_cambio (ctx : MatcherCtx) (usadas : List String)
    (factura : Factura) (solver : Solver) (facturas : List Factura) :
    (conciliar_factura ctx usadas factura).2 = usadas ∧
    (conciliar_lote ctx solver facturas).2 =
      registrar_asignaciones
        (resolver_asignacion_optima (candidatas_por_factura_de ctx facturas)
          (facturas_con_candidatas_de facturas
            (candidatas_por_factura_de ctx facturas)) solver) [] := by
  constructor
  · exact conciliar_factura_preserva_usadas ctx usadas factura
  · unfold conciliar_lote
    dsimp only
    rw [foldl_sin_preserva_usadas, foldl_paso_preserva_usadas]

/-! ## Claim C1 -/

unseal Rat.sub Rat.add Rat.mul Rat.inv Rat.ofScientific in
/-- C1 fails on the code: conciliar_factura commits nothing to the consumed
set, so in a sequential run over two invoices the same receipt R1 is
matched successfully to both.  This theorem evaluates the code on the
failing input: the first call succeeds with R1 yet returns an unchanged
(empty) consumed set, and the second call, fed exactly the state the first
call returned, succeeds with R1 again. -/
theorem c1_remision_reutilizada :
    (conciliar_factura ctx_c1 [] fW).1.conciliacion_exitosa = true ∧
    (conciliar_factura ctx_c1 [] fW).1.numero_remision = some "R1" ∧
    (conciliar_factura ctx_c1 [] fW).2 = [] ∧
    (conciliar_factura ctx_c1 (conciliar_factura ctx_c1 [] fW).2
      fC1b).1.conciliacion_exitosa = true ∧
    (conciliar_factura ctx_c1 (conciliar_factura ctx_c1 [] fW).2
      fC1b).1.numero_remision = some "R1" :=
  ⟨rfl, rfl, rfl, rfl, rfl⟩

/-! ## Claim C3 -/

unseal Rat.sub Rat.add Rat.mul Rat.inv Rat.ofScientific in
/-- Counterexample to C3 as stated: for the invoice of total 100 and the
two eligible receipts of totals 50 and 49, the single enumerated
combination misses the total by 1 percent, within the configured 2 percent
tolerance, yet the combination search returns none. -/
theorem c3_contraejemplo :
    combos_enumerados [rQ50, rQ49] = [[rQ50, rQ49]] ∧
    sumTotals [rQ50, rQ49] ≠ fW.total ∧
    |fW.total - sumTotals [rQ50, rQ49]| / fW.total * 100 ≤
      ctxW.settings.tolerancia_monto_porcentaje ∧
    buscar_combinacion_remisiones ctxW fW [rQ50, rQ49] 15 = none :=
  ⟨rfl, by decide, by decide, rfl⟩

/-- C3 amended: the combination tolerance is hard-coded to zero, so the
search returns a combination precisely when some enumerated combination
sums exactly to the invoice total (the first such, in enumeration order,
scored as a combination); with no exact combination it returns none, and
the line-item-count preference and best-seen fallback ordering are
unreachable. -/
theorem c3_combinacion_solo_exacta (ctx : MatcherCtx) (factura : Factura)
    (remisiones : List Remision) (limite_candidatas : ℕ) :
    buscar_combinacion_remisiones ctx factura remisiones limite_candidatas =
      combinacion_exacta_especificada ctx factura remisiones
        limite_candidatas :=
  buscar_combinacion_eq_exacta ctx factura remisiones limite_candidatas

/-! ## Claim C4 -/

unseal Rat.sub Rat.add Rat.mul Rat.inv Rat.ofScientific in
/-- C4 fails on the code, which truncates the candidate pool before
searching: in the pool of 20 eligible receipts whose only exact-sum pair
(60 and 40 against the invoice total 100) sits at positions 16 and 17 of
the retrieval order, the combination search under the default bound of 15
returns none. -/
theorem c4_truncamiento_pierde_combinacion :
    pool20.length = 20 ∧
    pool20.filter (fun r => decide (r.total ≤ fW.total) &&
      !(r.esta_facturada)) = pool20 ∧
    pool20[15]? = some b60 ∧ pool20[16]? = some b40 ∧
    sumTotals [b60, b40] = fW.total ∧
    buscar_combinacion_remisiones ctxW fW pool20 15 = none := by
  refine ⟨rfl, rfl, rfl, rfl, by decide, ?_⟩
  rw [buscar_combinacion_eq_exacta]
  unfold combinacion_exacta_especificada
  dsimp only
  rw [if_neg (by decide)]
  have hcand : pool20.filter (fun r => decide (r.total ≤ fW.total) &&
      !(r.esta_facturada)) = pool20 := rfl
  rw [hcand]
  have htake : ∀ r ∈ pool20.take (min pool20.length 15), r.total = 7 := by
    decide
  suffices hfind : (combos_enumerados
      (pool20.take (min pool20.length 15))).find?
      (fun combo => decide (sumTotals combo = fW.total)) = none by
    rw [hfind]
    rfl
  rw [List.find?_eq_none]
  intro combo hmem
  simp only [combos_enumerados, List.mem_flatMap] at hmem
  obtain ⟨k, _, hck⟩ := hmem
  obtain ⟨hlen, hsub⟩ := mem_combinaciones _ k combo hck
  have hconst : ∀ r ∈ combo, r.total = 7 := by
    intro r hr
    exact htake r (hsub.subset hr)
  have hsum : sumTotals combo = 7 * combo.length :=
    sumTotals_const 7 combo hconst
  simp only [decide_eq_true_eq]
  intro hexact
  rw [hsum] at hexact
  have htot : fW.total = 100 := rfl
  rw [htot] at hexact
  have hcast : ((7 * combo.length : ℕ) : ℚ) = ((100 : ℕ) : ℚ) := by
    push_cast
    linarith
  have : 7 * combo.length = 100 := Nat.cast_injective hcast
  omega

/-! ## Claim C2 -/

/-- The batch property of three equal invoices and receipts is decidable by
evaluation. -/
instance c2_propiedad_decidable (c0 c1 c2 : ℕ) :
    Decidable (c2_propiedad c0 c1 c2) := by
  unfold c2_propiedad
  dsimp only
  infer_instance

unseal Rat.sub Rat.add Rat.mul Rat.inv Rat.ofScientific in
/-- C2: for the batch of three invoices of total 2112 against three
distinct unlinked receipts of total 2112 offered to each of them, and for
every complete matching the assignment solver can return (rows 0,1,2 paired
with a permutation of the three columns), conciliar_lote marks all three
results successful with exactly one receipt each and no receipt id appears
in two results. -/
theorem c2_asignacion_sin_repeticion :
    ∀ c0 < 3, ∀ c1 < 3, ∀ c2 < 3,
      ([c0, c1, c2].Perm [0, 1, 2]) → c2_propiedad c0 c1 c2 := by
  decide

/-- Witness for C2 at the identity matching. -/
theorem c2_asignacion_sin_repeticion_witness : c2_propiedad 0 1 2 :=
  c2_asignacion_sin_repeticion 0 (by decide) 1 (by decide) 2 (by decide)
    (by decide)

/-! ## Claim C6 -/

/-- A failing solver always produces the empty assignment. -/
theorem resolver_fallido_vacio
    (mapa : List (String × List (RemCand × MatchScore)))
    (facturas : List Factura) :
    resolver_asignacion_optima mapa facturas solver_fallido = [] := by
  unfold resolver_asignacion_optima
  split
  · rfl
  · dsimp only
    split
    · rfl
    · rfl

/-- With an empty assignment dictionary, phase 3 maps every invoice with
candidates through the per-invoice fallback, never touching the consumed
set. -/
theorem foldl_paso_vacio (ctx : MatcherCtx) :
    ∀ (l : List Factura) (acc : List ResultadoConciliacion),
      l.foldl (lote_paso_con_candidatas ctx []) (acc, []) =
        (acc ++ l.map (fun f => (lote_fallback_factura ctx [] f).1), []) := by
  intro l
  induction l with
  | nil => intro acc; simp
  | cons f t ih =>
    intro acc
    rw [List.foldl_cons]
    have hstep : lote_paso_con_candidatas ctx [] (acc, []) f =
        (acc ++ [(lote_fallback_factura ctx [] f).1], []) := by
      show (acc ++ [(lote_fallback_factura ctx [] f).1],
        (lote_fallback_factura ctx [] f).2) = _
      rw [lote_fallback_preserva_usadas]
    rw [hstep, ih]
    simp

/-- The no-candidate tail of phase 3 maps every invoice through
conciliar_factura, never touching the consumed set. -/
theorem foldl_sin_map (ctx : MatcherCtx) :
    ∀ (l : List Factura) (acc : List ResultadoConciliacion),
      l.foldl (fun st2 f =>
        let fb := conciliar_factura ctx st2.2 f
        (st2.1 ++ [fb.1], fb.2)) (acc, []) =
        (acc ++ l.map (fun f => (conciliar_factura ctx [] f).1), []) := by
  intro l
  induction l with
  | nil => intro acc; simp
  | cons f t ih =>
    intro acc
    rw [List.foldl_cons]
    have hstep : (acc ++ [(conciliar_factura ctx [] f).1],
        (conciliar_factura ctx [] f).2) =
        (acc ++ [(conciliar_factura ctx [] f).1], []) := by
      rw [conciliar_factura_preserva_usadas]
    dsimp only
    rw [hstep, ih]
    simp

/-- C6: an empty invoice list, an empty column list, or a raising solver
each make the optimal-assignment resolution return the empty dictionary
rather than propagate an error, and under a raising solver every invoice of
the batch proceeds through the per-invoice fallback path of conciliar_lote
(the invoices with exact candidates via the fallback branch of phase 3, the
rest via conciliar_factura). -/
theorem c6_degenerado_sin_error (ctx : MatcherCtx) (solver : Solver)
    (mapa : List (String × List (RemCand × MatchScore)))
    (facturas : List Factura) :
    (resolver_asignacion_optima mapa [] solver = []) ∧
    (recolectar_columnas facturas mapa = [] →
      resolver_asignacion_optima mapa facturas solver = []) ∧
    (resolver_asignacion_optima mapa facturas solver_fallido = []) ∧
    ((conciliar_lote ctx solver_fallido facturas).1 =
      (facturas_con_candidatas_de facturas
          (candidatas_por_factura_de ctx facturas)).map
        (fun f => (lote_fallback_factura ctx [] f).1) ++
      (facturas_sin_candidatas_de facturas
          (candidatas_por_factura_de ctx facturas)).map
        (fun f => (conciliar_factura ctx [] f).1)) := by
  refine ⟨rfl, ?_, resolver_fallido_vacio mapa facturas, ?_⟩
  · intro h
    unfold resolver_asignacion_optima
    split
    · rfl
    · dsimp only
      rw [h]
      rfl
  · unfold conciliar_lote
    dsimp only
    rw [resolver_fallido_vacio]
    rw [show registrar_asignaciones [] [] = [] from rfl]
    rw [foldl_paso_vacio, foldl_sin_map]
    simp

/-- Witness for C6: an empty candidate dictionary yields no columns, hence
the empty assignment. -/
theorem c6_degenerado_sin_error_witness :
    recolectar_columnas [fW] [] = [] ∧
    resolver_asignacion_optima [] [fW] solver_fallido = [] :=
  ⟨rfl, (c6_degenerado_sin_error ctxW solver_fallido [] [fW]).2.1 rfl⟩

/-! ## Claim C8 -/

/-- The unique-match branch of the direct-number stage records the score
percentage and succeeds exactly within the configured tolerance. -/
theorem llenar_directo_unico_politica (ctx : MatcherCtx) (factura : Factura)
    (res0 : ResultadoConciliacion) (remision : Remision)
    (h0 : res0.conciliacion_exitosa = false) :
    (llenar_directo_unico ctx factura res0 remision).diferencia_porcentaje =
      some (calcular_score ctx factura remision).diferencia_porcentaje ∧
    ((llenar_directo_unico ctx factura res0 remision).conciliacion_exitosa =
        true ↔
      |(calcular_score ctx factura remision).diferencia_porcentaje| ≤
        ctx.settings.tolerancia_monto_porcentaje) := by
  unfold llenar_directo_unico
  dsimp only
  split_ifs with h
  · simp [h]
  · simp [h, h0]

/-- The issuer-filtered branch of the direct-number stage records the score
percentage and succeeds exactly within the configured tolerance. -/
theorem llenar_directo_rfc_politica (ctx : MatcherCtx) (factura : Factura)
    (res0 : ResultadoConciliacion) (remision : Remision)
    (h0 : res0.conciliacion_exitosa = false) :
    (llenar_directo_rfc ctx factura res0 remision).diferencia_porcentaje =
      some (calcular_score ctx factura remision).diferencia_porcentaje ∧
    ((llenar_directo_rfc ctx factura res0 remision).conciliacion_exitosa =
        true ↔
      |(calcular_score ctx factura remision).diferencia_porcentaje| ≤
        ctx.settings.tolerancia_monto_porcentaje) := by
  unfold llenar_directo_rfc
  dsimp only
  split_ifs with h
  · simp [h]
  · simp [h, h0]

/-- The PDF-stage result filling records the percentage difference and
succeeds exactly when it is strictly below the configured tolerance. -/
theorem llenar_pdf_politica (ctx : MatcherCtx) (factura : Factura)
    (res0 : ResultadoConciliacion) (rems : List Remision)
    (h0 : res0.conciliacion_exitosa = false) :
    ∃ pct,
      (llenar_pdf ctx factura res0 rems).diferencia_porcentaje = some pct ∧
      ((llenar_pdf ctx factura res0 rems).conciliacion_exitosa = true ↔
        pct < ctx.settings.tolerancia_monto_porcentaje) := by
  unfold llenar_pdf
  dsimp only
  repeat' split
  all_goals exact ⟨_, rfl, by simp_all⟩

/-- C8: the success flag follows a different policy per stage.  The
direct-number stage succeeds iff the absolute percentage difference is at
most the configured tolerance; the PDF-reference stage succeeds iff the
percentage difference is strictly below the tolerance; and both heuristic
result paths (single receipt and multi-receipt combination) succeed iff the
total score reaches 0.70 and the absolute amount difference is exactly
zero. -/
theorem c8_politicas_de_exito (ctx : MatcherCtx) (usadas : List String)
    (factura : Factura) (res0 : ResultadoConciliacion)
    (remision : Remision) (score : MatchScore)
    (h0 : res0.conciliacion_exitosa = false) :
    (∀ res, buscar_por_numero_directo ctx usadas factura res0 = some res →
      ∃ pct, res.diferencia_porcentaje = some pct ∧
        (res.conciliacion_exitosa = true ↔
          |pct| ≤ ctx.settings.tolerancia_monto_porcentaje)) ∧
    (∀ res, buscar_por_pdf ctx usadas factura res0 = some res →
      ∃ pct, res.diferencia_porcentaje = some pct ∧
        (res.conciliacion_exitosa = true ↔
          pct < ctx.settings.tolerancia_monto_porcentaje)) ∧
    ((aplicar_resultado_simple res0 (remision, score)
        factura).conciliacion_exitosa = true ↔
      ((0.70 : ℚ) ≤ score.score_total ∧ |score.diferencia_monto| = 0)) ∧
    ((aplicar_resultado_multi res0 score
        factura).conciliacion_exitosa = true ↔
      ((0.70 : ℚ) ≤ score.score_total ∧ |score.diferencia_monto| = 0)) := by
  refine ⟨?_, ?_, ?_, ?_⟩
  · intro res h
    unfold buscar_por_numero_directo at h
    repeat' first | (dsimp only at h) | (split at h)
    all_goals
      first
        | (rw [Option.some_inj] at h
           subst h
           first
             | exact ⟨_, (llenar_directo_unico_politica ctx factura res0
                   _ h0).1,
                 (llenar_directo_unico_politica ctx factura res0 _ h0).2⟩
             | exact ⟨_, (llenar_directo_rfc_politica ctx factura res0
                   _ h0).1,
                 (llenar_directo_rfc_politica ctx factura res0 _ h0).2⟩)
        | simp at h
  · intro res h
    unfold buscar_por_pdf at h
    repeat' first | (dsimp only at h) | (split at h)
    all_goals
      first
        | (rw [Option.some_inj] at h
           subst h
           exact llenar_pdf_politica ctx factura res0 _ h0)
        | simp at h
  · unfold aplicar_resultado_simple
    dsimp only
    split_ifs with h1 h2
    · simp [SCORE_MINIMO_ACEPTABLE] at h1
      simp [h1, h2]
    · simp [SCORE_MINIMO_ACEPTABLE] at h1
      simp [h0, h1, h2]
    · simp [SCORE_MINIMO_ACEPTABLE] at h1
      simp [h0, h1]
  · unfold aplicar_resultado_multi
    dsimp only
    split_ifs with h1 h2
    · simp [SCORE_MINIMO_ACEPTABLE] at h1
      simp [h1, h2]
    · simp [SCORE_MINIMO_ACEPTABLE] at h1
      simp [h0, h1, h2]
    · simp [SCORE_MINIMO_ACEPTABLE] at h1
      simp [h0, h1]

/-- Witness for C8 at the heuristic single-receipt path on a concrete exact
match. -/
theorem c8_politicas_de_exito_witness :
    (aplicar_resultado_simple (resultado_base fW)
        (remW, calcular_score ctxW fW remW) fW).conciliacion_exitosa = true ↔
      ((0.70 : ℚ) ≤ (calcular_score ctxW fW remW).score_total ∧
        |(calcular_score ctxW fW remW).diferencia_monto| = 0) :=
  (c8_politicas_de_exito ctxW [] fW (resultado_base fW) remW
    (calcular_score ctxW fW remW) rfl).2.2.1

/-! ## Claim C10 -/

/-- The duplicate-detection loop only appends to its alert accumulator. -/
theorem detectar_loop_append (a : List String) :
    ∀ (rs : List ResultadoConciliacion) (b : List String)
      (seen : List (String × String)),
      detectar_loop rs (a ++ b) seen = a ++ detectar_loop rs b seen := by
  intro rs
  induction rs with
  | nil => intro b seen; rfl
  | cons r rest ih =>
    intro b seen
    unfold detectar_loop
    split
    · split_ifs with hs
      · split
        · rw [List.append_assoc]
          exact ih (b ++ [_]) seen
        · exact ih b _
      · exact ih b seen
    · exact ih b seen

/-- Characterization of an empty alert list: no result matches a key
already seen, and no two results carry the same non-empty
numero_remision. -/
theorem detectar_loop_vacio :
    ∀ (rs : List ResultadoConciliacion) (seen : List (String × String)),
      detectar_loop rs [] seen = [] ↔
        ((∀ r ∈ rs, ∀ s : String, s ≠ "" → r.numero_remision = some s →
          ∀ kv ∈ seen, kv.1 ≠ s) ∧
          rs.Pairwise sin_par_duplicado) := by
  intro rs
  induction rs with
  | nil =>
    intro seen
    constructor
    · intro _
      exact ⟨by simp, List.Pairwise.nil⟩
    · intro _
      rfl
  | cons r rest ih =>
    intro seen
    unfold detectar_loop
    split
    · rename_i s hnum
      split_ifs with hs
      · split
        · rename_i kv hkv
          constructor
          · intro h
            exfalso
            have hApp := detectar_loop_append
              ["REMISION_DUPLICADA: Remision " ++ s ++
                " vinculada a facturas " ++ kv.2 ++ " y " ++ r.uuid_factura]
              rest [] seen
            rw [List.append_nil] at hApp
            simp only [List.nil_append] at h
            rw [hApp] at h
            simp at h
          · rintro ⟨hhead, _⟩
            exfalso
            have hkvmem := List.mem_of_find?_eq_some hkv
            have hkv1 : kv.1 = s := by
              have := List.find?_some hkv
              simpa using this
            exact hhead r (by simp) s hs hnum kv hkvmem hkv1
        · rename_i hfind
          rw [ih (seen ++ [(s, r.uuid_factura)])]
          have hseen : ∀ kv ∈ seen, kv.1 ≠ s := by
            intro kv hkv
            have := List.find?_eq_none.mp hfind kv hkv
            simpa using this
          constructor
          · rintro ⟨hrest, hpw⟩
            refine ⟨?_, ?_⟩
            · intro r' hr' s' hs' hnum' kv hkv
              rcases List.mem_cons.mp hr' with rfl | hr'
              · rw [hnum] at hnum'
                have : s = s' := by injection hnum'
                subst this
                exact hseen kv hkv
              · exact hrest r' hr' s' hs' hnum' kv (by simp [hkv])
            · rw [List.pairwise_cons]
              refine ⟨?_, hpw⟩
              intro b hb s' hs' hnum' hnum2
              rw [hnum] at hnum'
              have : s = s' := by injection hnum'
              subst this
              exact hrest b hb s hs' hnum2 (s, r.uuid_factura)
                (by simp) rfl
          · rintro ⟨hall, hpw⟩
            rw [List.pairwise_cons] at hpw
            refine ⟨?_, hpw.2⟩
            intro r' hr' s' hs' hnum' kv hkv
            rcases List.mem_append.mp hkv with hkv | hkv
            · exact hall r' (by simp [hr']) s' hs' hnum' kv hkv
            · have : kv = (s, r.uuid_factura) := by simpa using hkv
              subst this
              dsimp only
              intro he
              subst he
              exact hpw.1 r' hr' s hs hnum hnum'
      · push_neg at hs
        subst hs
        rw [ih seen]
        constructor
        · rintro ⟨hrest, hpw⟩
          refine ⟨?_, ?_⟩
          · intro r' hr' s' hs' hnum' kv hkv
            rcases List.mem_cons.mp hr' with rfl | hr'
            · rw [hnum] at hnum'
              have : "" = s' := by injection hnum'
              exact absurd this.symm hs'
            · exact hrest r' hr' s' hs' hnum' kv hkv
          · rw [List.pairwise_cons]
            refine ⟨?_, hpw⟩
            intro b hb s' hs' hnum' hnum2
            rw [hnum] at hnum'
            have : "" = s' := by injection hnum'
            exact absurd this.symm hs'
        · rintro ⟨hall, hpw⟩
          rw [List.pairwise_cons] at hpw
          exact ⟨fun r' hr' => hall r' (by simp [hr']), hpw.2⟩
    · rename_i hnum
      rw [ih seen]
      constructor
      · rintro ⟨hrest, hpw⟩
        refine ⟨?_, ?_⟩
        · intro r' hr' s' hs' hnum' kv hkv
          rcases List.mem_cons.mp hr' with rfl | hr'
          · rw [hnum] at hnum'
            exact absurd hnum' (by simp)
          · exact hrest r' hr' s' hs' hnum' kv hkv
        · rw [List.pairwise_cons]
          refine ⟨?_, hpw⟩
          intro b hb s' hs' hnum'
          rw [hnum] at hnum'
          exact absurd hnum' (by simp)
      · rintro ⟨hall, hpw⟩
        rw [List.pairwise_cons] at hpw
        exact ⟨fun r' hr' => hall r' (by simp [hr']), hpw.2⟩

/-- The audit returns no alert exactly when no two results carry the same
non-empty numero_remision string. -/
theorem detectar_vacio_iff (resultados : List ResultadoConciliacion) :
    detectar_remisiones_duplicadas resultados = [] ↔
      resultados.Pairwise sin_par_duplicado := by
  unfold detectar_remisiones_duplicadas
  rw [detectar_loop_vacio]
  simp

/-- Failure of the pairwise predicate is exactly the positional duplicate
statement. -/
theorem no_pairwise_iff_existe (resultados : List ResultadoConciliacion) :
    ¬ resultados.Pairwise sin_par_duplicado ↔
      existe_duplicado resultados := by
  rw [List.pairwise_iff_get]
  unfold existe_duplicado sin_par_duplicado
  push_neg
  constructor
  · rintro ⟨i, j, hij, s, hs, hnum1, hnum2⟩
    exact ⟨i.val, j.val, i.isLt, j.isLt, Nat.ne_of_lt hij, s, hs,
      hnum1, hnum2⟩
  · rintro ⟨i, j, hi, hj, hne, s, hs, h1, h2⟩
    rcases Nat.lt_or_ge i j with hlt | hge
    · exact ⟨⟨i, hi⟩, ⟨j, hj⟩, hlt, s, hs, h1, h2⟩
    · have hlt : j < i := Nat.lt_of_le_of_ne hge (fun he => hne he.symm)
      exact ⟨⟨j, hj⟩, ⟨i, hi⟩, hlt, s, hs, h2, h1⟩

/-- C10: detectar_remisiones_duplicadas raises an alert precisely when two
results carry character-for-character equal non-empty numero_remision
strings; consequently a receipt that appears alone in one result and as a
member of another result's comma-joined multi-receipt string is not
reported, while two textually equal strings are. -/
theorem c10_duplicado_solo_por_cadena_igual :
    (∀ resultados, detectar_remisiones_duplicadas resultados ≠ [] ↔
      existe_duplicado resultados) ∧
    resS.numero_remision = some "123" ∧
    resM.numero_remision = some "120, 123" ∧
    detectar_remisiones_duplicadas [resS, resM] = [] ∧
    resS2.numero_remision = some "123" ∧
    detectar_remisiones_duplicadas [resS, resS2] ≠ [] := by
  refine ⟨?_, rfl, rfl, rfl, rfl, by decide⟩
  intro resultados
  rw [← no_pairwise_iff_existe]
  constructor
  · intro h hpw
    exact h ((detectar_vacio_iff resultados).mpr hpw)
  · intro h he
    exact h ((detectar_vacio_iff resultados).mp he)

end ConcMatcher
